import Mathlib

/-!
# Verification of `0x02-redis_basic/exercise.py`

A shallow embedding of the `Cache` class, its two decorators
(`count_calls`, `call_history`) and the module-level `replay` helper,
together with proofs about their behaviour.

Modelling conventions:
* Redis byte strings are modelled by their textual content (`Bytes := String`);
  UTF-8 encoding/decoding is therefore the identity on the model.
* The Redis database is a pair of association lists: one for plain string
  keys (`SET`/`GET`/`INCR`), one for list keys (`RPUSH`/`LRANGE`).
  The newest binding for a key shadows older ones.
* Python exceptions are modelled with `Except PyErr`.
* Python `data` arguments (`str`, `bytes`, `int`; `float` is not modelled)
  are the inductive `PyData`.
* Randomness (`uuid.uuid4()`) is modelled by passing the fresh key as an
  explicit argument to the base `store`.
-/

/-- Redis byte strings, modelled by their textual content. -/
abbrev Bytes := String

/-- Python errors relevant to this module. -/
inductive PyErr where
  | attributeError
  | valueError
  | redisError
  deriving DecidableEq, Repr

/-- The dynamic values `Cache.get` can return: raw bytes, a decoded string,
or a parsed integer. Python `None` is modelled by `Option.none` around this. -/
inductive PyVal where
  | vbytes (b : Bytes)
  | vstr (t : String)
  | vint (n : Int)
  deriving DecidableEq, Repr

/-- The data accepted by `Cache.store` (`str`, `bytes`, `int`; the `float`
case of the Python annotation is not modelled). -/
inductive PyData where
  | str (t : String)
  | bytes (b : Bytes)
  | int (n : Int)
  deriving DecidableEq, Repr

/-- The state of the Redis database: plain string keys and list keys.
The most recent binding of a key (head-most) is the current one. -/
structure RedisState where
  kv : List (String × Bytes)
  lists : List (String × List Bytes)
  deriving DecidableEq, Repr

/-- The state right after `Cache.__init__` ran `flushdb` (line 17):
an empty database. -/
def initState : RedisState := ⟨[], []⟩

/-- `redis.get key`: the current binding of a plain string key, if any. -/
def redisGet (s : RedisState) (k : String) : Option Bytes :=
  (s.kv.find? (fun p => p.1 == k)).map Prod.snd

/-- `redis.set key v`: bind a plain string key (overwrite semantics). -/
def redisSet (s : RedisState) (k : String) (v : Bytes) : RedisState :=
  { s with kv := (k, v) :: s.kv }

/-- `redis.lrange key 0 (-1)`: the whole list stored at a list key
(the empty list when the key is absent). -/
def redisLrangeAll (s : RedisState) (k : String) : List Bytes :=
  ((s.lists.find? (fun p => p.1 == k)).map Prod.snd).getD []

/-- `redis.rpush key v`: append `v` at the tail of the list stored at `k`
(creating it when absent). -/
def redisRpush (s : RedisState) (k : String) (v : Bytes) : RedisState :=
  { s with lists := (k, redisLrangeAll s k ++ [v]) :: s.lists }

/-- Base-10 parse of a non-empty digit sequence. -/
def parseNatDigits (l : List Char) : Option Nat :=
  if l.isEmpty then none
  else l.foldl
    (fun acc? c => acc?.bind
      (fun acc => if c.isDigit then some (acc * 10 + (c.toNat - 48)) else none))
    (some 0)

/-- Base-10 integer parse of a byte string, with an optional leading minus:
the model of Python `int()` applied to bytes (surrounding-whitespace
tolerance of `int()` is not modelled). -/
def parseInt (s : String) : Option Int :=
  match s.data with
  | [] => none
  | c :: rest =>
    if c.toNat = 45 then (parseNatDigits rest).map (fun n => -(n : Int))
    else (parseNatDigits (c :: rest)).map (fun n => (n : Int))

/-- `redis.incr key`: parse the current value as a base-10 integer
(absent means 0), add one, store the result back, and return it.
A non-integer current value is a Redis error. -/
def redisIncr (s : RedisState) (k : String) : Except PyErr (RedisState × Int) :=
  match redisGet s k with
  | none => Except.ok (redisSet s k (toString (1 : Int)), 1)
  | some b =>
    match parseInt b with
    | some n => Except.ok (redisSet s k (toString (n + 1)), n + 1)
    | none => Except.error PyErr.redisError

/-- How the Redis client serialises a value before `SET` (line 30):
bytes pass through unchanged, strings are UTF-8 encoded (identity on the
model), integers are stringified. -/
def encodeData : PyData → Bytes
  | PyData.str t => t
  | PyData.bytes b => b
  | PyData.int n => toString n

/-- Python `repr` of a stored value, as used by `str(args)`
(quote escaping inside the payload is not modelled). -/
def pyRepr : PyData → String
  | PyData.str t => "\x27" ++ t ++ "\x27"
  | PyData.bytes b => "b\x27" ++ b ++ "\x27"
  | PyData.int n => toString n

/-- `str(args).encode()` for the one-element positional tuple `(data,)`
built by the `call_history` wrapper (line 93). -/
def strArgs (d : PyData) : Bytes := "(" ++ pyRepr d ++ ",)"

/-- The base `Cache.store` (lines 19-31): store `data` under a fresh random
key and return the key. The `uuid.uuid4()` key is passed explicitly. -/
def Cache.store (key : String) (s : RedisState) (data : PyData) :
    RedisState × String :=
  (redisSet s key (encodeData data), key)

/-- `Cache.get` (lines 33-49): look the key up; `None` when absent
(the converter is not applied then); apply the converter when supplied,
else return the raw bytes. A converter error propagates. -/
def Cache.get (s : RedisState) (key : String)
    (fn : Option (Bytes → Except PyErr PyVal)) : Except PyErr (Option PyVal) :=
  match redisGet s key with
  | none => Except.ok none
  | some v =>
    match fn with
    | some f => (f v).map some
    | none => Except.ok (some (PyVal.vbytes v))

/-- The converter `lambda d: d.decode("utf-8")` of `get_str` (line 53).
Bytes are modelled as their text, so decoding is the identity and this
model covers exactly the valid-UTF-8 inputs. -/
def decodeUtf8 (d : Bytes) : Except PyErr PyVal :=
  Except.ok (PyVal.vstr d)

/-- The converter `int` of `get_int` (line 57): parse base-10 text,
raising `ValueError` on non-numeric bytes. -/
def intOfBytes (d : Bytes) : Except PyErr PyVal :=
  match parseInt d with
  | some n => Except.ok (PyVal.vint n)
  | none => Except.error PyErr.valueError

/-- `Cache.get_str` (lines 51-53). -/
def Cache.get_str (s : RedisState) (key : String) : Except PyErr (Option PyVal) :=
  Cache.get s key (some decodeUtf8)

/-- `Cache.get_int` (lines 55-57). -/
def Cache.get_int (s : RedisState) (key : String) : Except PyErr (Option PyVal) :=
  Cache.get s key (some intOfBytes)

/-- A wrapped method: it reads and writes the Redis database, takes one
positional argument, and either returns a string or raises. -/
abbrev Meth := RedisState → PyData → RedisState × Except PyErr String

/-- The `count_calls` decorator (lines 59-73): increment the counter keyed
by the wrapped method's `__qualname__` (passed as `qual`), then delegate.
A failed increment propagates without calling the method. -/
def count_calls (qual : String) (method : Meth) : Meth := fun s data =>
  match redisIncr s qual with
  | Except.error e => (s, Except.error e)
  | Except.ok (s1, _) => method s1 data

/-- The `call_history` decorator (lines 80-97): append `str(args).encode()`
to `<qual>:inputs`, call the method, append its output to `<qual>:outputs`,
return the output. When the method raises, the output append is skipped
and the error propagates. -/
def call_history (qual : String) (method : Meth) : Meth := fun s data =>
  match method (redisRpush s (qual ++ ":inputs") (strArgs data)) data with
  | (s2, Except.error e) => (s2, Except.error e)
  | (s2, Except.ok out) =>
    (redisRpush s2 (qual ++ ":outputs") out, Except.ok out)

/-- The finally-bound `Cache.store` (lines 99-102): the `call_history`
wrapper around a body that calls `self.store(data)`. Python name resolution
binds `self.store` to the most recently defined `store`, i.e. to this very
wrapper, so the body's call is a recursive self-call. Evaluation is
fuel-indexed: `none` means the call did not finish within `fuel` nested
wrapper invocations. The wrapped body's `__qualname__` is `"Cache.store"`. -/
def Cache.store_final : Nat → RedisState → PyData → RedisState × Option String
  | 0, s, _ => (s, none)
  | fuel + 1, s, data =>
    match Cache.store_final fuel
        (redisRpush s ("Cache.store" ++ ":inputs") (strArgs data)) data with
    | (s2, none) => (s2, none)
    | (s2, some out) =>
      (redisRpush s2 ("Cache.store" ++ ":outputs") out, some out)

/-- A Python function/bound-method object as `replay` sees it: its
`__qualname__` and the names of the custom attributes reachable through
attribute lookup on it. A bound method forwards attribute lookup to its
underlying function; the wrapper functions produced by the decorators
carry no custom attributes, and `_redis` is only ever assigned on `Cache`
instances (line 16), never on a function. -/
structure MethodObj where
  qualname : String
  attrs : List String
  deriving DecidableEq, Repr

/-- The bound method `cache.store` of a `Cache` instance: the value bound
under the name `store` is the `call_history` wrapper (lines 90-97), whose
`__qualname__` is that of the nested `wrapper` function and which carries
no `_redis` attribute. -/
def cacheStoreMethod : MethodObj :=
  { qualname := "Cache.call_history.<locals>.wrapper", attrs := [] }

/-- `replay` (lines 104-118): read `method._redis` (an `AttributeError`
when the object carries no such attribute), then the counter under
`method.__qualname__` (`None.decode` on an absent counter is an
`AttributeError`), then both logs; print the header line and one line per
`zip`-paired (input, output) entry. The returned state is the state after
the call; the list is the printed lines. -/
def replay (method : MethodObj) (s : RedisState) :
    RedisState × Except PyErr (List String) :=
  if method.attrs.contains "_redis" then
    match redisGet s method.qualname with
    | none => (s, Except.error PyErr.attributeError)
    | some count =>
      (s, Except.ok
        ((method.qualname ++ " was called " ++ count ++ " times:") ::
          (List.zip (redisLrangeAll s (method.qualname ++ ":inputs"))
              (redisLrangeAll s (method.qualname ++ ":outputs"))).map
            (fun p => method.qualname ++ "(*" ++ p.1 ++ ") -> " ++ p.2)))
  else (s, Except.error PyErr.attributeError)

/-! ## Helper lemmas -/

/-- Reading back the key just written returns the written value. -/
theorem redisGet_set_self (s : RedisState) (k : String) (v : Bytes) :
    redisGet (redisSet s k v) k = some v := by
  simp [redisGet, redisSet, List.find?]

/-- The final `store` never produces a value, for any fuel. -/
theorem store_final_snd_none (fuel : Nat) (s : RedisState) (d : PyData) :
    (Cache.store_final fuel s d).2 = none := by
  induction fuel generalizing s with
  | zero => rfl
  | succ n ih =>
    simp only [Cache.store_final]
    rcases h : Cache.store_final n
        (redisRpush s ("Cache.store" ++ ":inputs") (strArgs d)) d with ⟨s2, o⟩
    have ho : o = none := by
      have := ih (redisRpush s ("Cache.store" ++ ":inputs") (strArgs d))
      rw [h] at this
      exact this
    subst ho
    rfl

/-! ## Claims -/

/-- C1: the finally-bound `Cache.store` (the `call_history`-wrapped
definition whose body calls `self.store(data)`) never terminates: for every
input `data`, every starting state and every recursion budget, evaluation
runs out of fuel without producing a key. -/
theorem store_final_never_terminates (fuel : Nat) (s : RedisState) (d : PyData) :
    (Cache.store_final fuel s d).2 = none :=
  store_final_snd_none fuel s d

/-- C2 (code bug): the spec's invariant "inputs log length = outputs log
length = call counter" is broken by the code. After the first recursion
step of a single `store("foo")` call from a freshly initialized cache, the
inputs log already holds one entry while the outputs log is empty and the
counter key was never created: the `count_calls`-wrapped `store`
(lines 75-78) is shadowed by the later definition and never runs, and the
output append (line 95) is never reached. -/
theorem store_partial_breaks_log_counter_invariant :
    (redisLrangeAll (Cache.store_final 1 initState (PyData.str "foo")).1
        "Cache.store:inputs").length = 1
    ∧ (redisLrangeAll (Cache.store_final 1 initState (PyData.str "foo")).1
        "Cache.store:outputs").length = 0
    ∧ redisGet (Cache.store_final 1 initState (PyData.str "foo")).1
        "Cache.store" = none :=
  ⟨rfl, rfl, rfl⟩

/-- C3: `Cache.get` on a key absent from the store returns `None`, whatever
converter is supplied; the result does not depend on the converter, so the
converter is never invoked (even an always-raising converter yields no
error). -/
theorem get_missing_key_returns_none (s : RedisState) (key : String)
    (fn : Option (Bytes → Except PyErr PyVal)) (h : redisGet s key = none) :
    Cache.get s key fn = Except.ok none := by
  simp only [Cache.get, h]

/-- Witness for C3 at a concrete input: the fresh database and the `int`
converter. -/
theorem get_missing_key_returns_none_witness :
    Cache.get initState "missing" (some intOfBytes) = Except.ok none :=
  get_missing_key_returns_none initState "missing" (some intOfBytes) rfl

/-- C4: round-trip through the base `store` (lines 19-31): storing `v`
under key `k` and reading `k` back with no converter returns the raw
bytes — `v` itself when `v` is byte-like, its byte-encoded (stringified)
form otherwise. -/
theorem store_get_roundtrip (s : RedisState) (k : String) (v : PyData) :
    Cache.get (Cache.store k s v).1 k none =
      Except.ok (some (PyVal.vbytes
        (match v with
          | PyData.bytes b => b
          | PyData.str t => t
          | PyData.int n => toString n))) := by
  cases v <;>
    simp [Cache.get, Cache.store, redisGet_set_self, encodeData]

/-- C5: `get_str` returns the UTF-8 decoding of the stored bytes, `get_int`
the base-10 parse when the bytes are numeric text; both return `None` on an
absent key, and `get_int` propagates the conversion error (`ValueError`)
on non-numeric bytes. -/
theorem get_str_get_int_spec (s : RedisState) (key : String) :
    (∀ b, redisGet s key = some b →
      Cache.get_str s key = Except.ok (some (PyVal.vstr b)))
    ∧ (∀ b n, redisGet s key = some b → parseInt b = some n →
      Cache.get_int s key = Except.ok (some (PyVal.vint n)))
    ∧ (redisGet s key = none →
      Cache.get_str s key = Except.ok none
      ∧ Cache.get_int s key = Except.ok none)
    ∧ (∀ b, redisGet s key = some b → parseInt b = none →
      Cache.get_int s key = Except.error PyErr.valueError) := by
  refine ⟨?_, ?_, ?_, ?_⟩
  · intro b hb
    simp only [Cache.get_str, Cache.get, hb, decodeUtf8, Except.map]
  · intro b n hb hn
    simp only [Cache.get_int, Cache.get, hb, intOfBytes, hn, Except.map]
  · intro h
    exact ⟨by simp only [Cache.get_str, Cache.get, h],
      by simp only [Cache.get_int, Cache.get, h]⟩
  · intro b hb hn
    simp only [Cache.get_int, Cache.get, hb, intOfBytes, hn, Except.map]

/-- Witness for C5 at concrete inputs: key `"k"` holding `"42"` (decodes
and parses), the fresh database (absent key), and key `"k"` holding
`"foo"` (parse error). -/
theorem get_str_get_int_spec_witness :
    Cache.get_str (redisSet initState "k" "42") "k"
        = Except.ok (some (PyVal.vstr "42"))
    ∧ Cache.get_int (redisSet initState "k" "42") "k"
        = Except.ok (some (PyVal.vint 42))
    ∧ Cache.get_str initState "k" = Except.ok none
    ∧ Cache.get_int initState "k" = Except.ok none
    ∧ Cache.get_int (redisSet initState "k" "foo") "k"
        = Except.error PyErr.valueError :=
  ⟨(get_str_get_int_spec (redisSet initState "k" "42") "k").1 "42" rfl,
    (get_str_get_int_spec (redisSet initState "k" "42") "k").2.1 "42" 42 rfl
      (by decide),
    ((get_str_get_int_spec initState "k").2.2.1 rfl).1,
    ((get_str_get_int_spec initState "k").2.2.1 rfl).2,
    (get_str_get_int_spec (redisSet initState "k" "foo") "k").2.2.2 "foo" rfl
      (by decide)⟩

/-- C6 counterexample: history entries are NOT "only ever fully paired".
When the wrapped operation raises (here a method that always raises
`ValueError`), the input entry pushed before the call stays in the inputs
log while the outputs log stays empty: after one failing call from the
fresh database the logs have lengths 1 and 0, and the error propagated. -/
theorem call_history_unpaired_on_error_cex :
    (redisLrangeAll
        (call_history "Cache.store"
            (fun st _ => (st, Except.error PyErr.valueError))
            initState (PyData.str "x")).1
        "Cache.store:inputs").length = 1
    ∧ (redisLrangeAll
        (call_history "Cache.store"
            (fun st _ => (st, Except.error PyErr.valueError))
            initState (PyData.str "x")).1
        "Cache.store:outputs").length = 0
    ∧ (call_history "Cache.store"
        (fun st _ => (st, Except.error PyErr.valueError))
        initState (PyData.str "x")).2 = Except.error PyErr.valueError :=
  ⟨rfl, rfl, rfl⟩

/-- C6 as amended: when the wrapped operation raises, the output append
does not occur (the wrapper returns the method's state untouched) and the
error propagates to the caller; but the input entry appended before the
call remains, so that call's history entry is left unpaired rather than
fully paired. -/
theorem call_history_error_spec (qual : String) (meth : Meth) (s : RedisState)
    (data : PyData) (s2 : RedisState) (e : PyErr)
    (h : meth (redisRpush s (qual ++ ":inputs") (strArgs data)) data
      = (s2, Except.error e)) :
    call_history qual meth s data = (s2, Except.error e)
    ∧ redisLrangeAll (redisRpush s (qual ++ ":inputs") (strArgs data))
        (qual ++ ":inputs")
      = redisLrangeAll s (qual ++ ":inputs") ++ [strArgs data] := by
  constructor
  · simp only [call_history, h]
  · simp [redisLrangeAll, redisRpush, List.find?]

/-- Witness for the amended C6 at a concrete input: an always-raising
method, the fresh database, and argument `"x"`. -/
theorem call_history_error_spec_witness :
    call_history "Cache.store"
        (fun st _ => (st, Except.error PyErr.valueError))
        initState (PyData.str "x")
      = (redisRpush initState ("Cache.store" ++ ":inputs")
          (strArgs (PyData.str "x")), Except.error PyErr.valueError)
    ∧ redisLrangeAll
        (redisRpush initState ("Cache.store" ++ ":inputs")
          (strArgs (PyData.str "x")))
        ("Cache.store" ++ ":inputs")
      = redisLrangeAll initState ("Cache.store" ++ ":inputs")
        ++ [strArgs (PyData.str "x")] :=
  call_history_error_spec "Cache.store"
    (fun st _ => (st, Except.error PyErr.valueError))
    initState (PyData.str "x")
    (redisRpush initState ("Cache.store" ++ ":inputs")
      (strArgs (PyData.str "x")))
    PyErr.valueError rfl

/-- C7: a successful `incr` makes the counter under the operation's
qualified name hold exactly one more than its previous value (1 when the
key was absent), and the wrapped call then simply delegates to the method
on the incremented state: the increment happens before the method runs,
is not rolled back when the method fails (the wrapper adds nothing after
delegation), and a successful result is returned unchanged. -/
theorem count_calls_spec (qual : String) (meth : Meth) (s : RedisState)
    (data : PyData) (s1 : RedisState) (n : Int)
    (h : redisIncr s qual = Except.ok (s1, n)) :
    redisGet s1 qual = some (toString n)
    ∧ (redisGet s qual = none → n = 1)
    ∧ (∀ b m, redisGet s qual = some b → parseInt b = some m → n = m + 1)
    ∧ count_calls qual meth s data = meth s1 data := by
  have hcc : count_calls qual meth s data = meth s1 data := by
    simp only [count_calls, h]
  cases hg : redisGet s qual with
  | none =>
    simp only [redisIncr, hg, Except.ok.injEq, Prod.mk.injEq] at h
    obtain ⟨hs, hn⟩ := h
    refine ⟨?_, fun _ => hn.symm, ?_, hcc⟩
    · rw [← hs, ← hn]
      exact redisGet_set_self s qual (toString (1 : Int))
    · intro b m hb
      simp at hb
  | some b =>
    cases hp : parseInt b with
    | none =>
      simp only [redisIncr, hg, hp] at h
      exact Except.noConfusion h
    | some m =>
      simp only [redisIncr, hg, hp, Except.ok.injEq, Prod.mk.injEq] at h
      obtain ⟨hs, hn⟩ := h
      refine ⟨?_, ?_, ?_, hcc⟩
      · rw [← hs, ← hn]
        exact redisGet_set_self s qual (toString (m + 1))
      · intro hnone
        simp at hnone
      · intro b' m' hb' hp'
        have hbb : b = b' := by
          injection hb'
        rw [← hbb, hp, Option.some.injEq] at hp'
        rw [← hn, hp']

/-- Witness for C7 at a concrete input: the fresh database (absent counter)
and a method that returns `"k"` without touching the state. -/
theorem count_calls_spec_witness :
    redisGet (redisSet initState "Cache.store" (toString (1 : Int)))
        "Cache.store" = some (toString (1 : Int))
    ∧ count_calls "Cache.store" (fun st _ => (st, Except.ok "k"))
        initState (PyData.str "x")
      = (redisSet initState "Cache.store" (toString (1 : Int)),
          Except.ok "k") :=
  ⟨(count_calls_spec "Cache.store" (fun st _ => (st, Except.ok "k"))
      initState (PyData.str "x")
      (redisSet initState "Cache.store" (toString (1 : Int))) 1 rfl).1,
    (count_calls_spec "Cache.store" (fun st _ => (st, Except.ok "k"))
      initState (PyData.str "x")
      (redisSet initState "Cache.store" (toString (1 : Int))) 1 rfl).2.2.2⟩

/-- C8: for an operation whose counter holds `n` and whose two logs both
have length `n`, `replay` (given an object carrying a `_redis` attribute)
leaves the store unchanged and returns exactly one header line with the
operation name and call count, followed by one line per `zip`-paired
(input, output) entry in log order, formatted
`<name>(*<input>) -> <output>`; with equal log lengths there are exactly
`n` such lines. -/
theorem replay_spec (m : MethodObj) (s : RedisState) (n : Nat)
    (hr : m.attrs.contains "_redis" = true)
    (hc : redisGet s m.qualname = some (toString n))
    (hi : (redisLrangeAll s (m.qualname ++ ":inputs")).length = n)
    (ho : (redisLrangeAll s (m.qualname ++ ":outputs")).length = n) :
    replay m s = (s, Except.ok
      ((m.qualname ++ " was called " ++ toString n ++ " times:") ::
        (List.zip (redisLrangeAll s (m.qualname ++ ":inputs"))
            (redisLrangeAll s (m.qualname ++ ":outputs"))).map
          (fun p => m.qualname ++ "(*" ++ p.1 ++ ") -> " ++ p.2)))
    ∧ ((List.zip (redisLrangeAll s (m.qualname ++ ":inputs"))
        (redisLrangeAll s (m.qualname ++ ":outputs"))).map
          (fun p => m.qualname ++ "(*" ++ p.1 ++ ") -> " ++ p.2)).length
      = n := by
  constructor
  · simp only [replay, hr, if_true, hc]
  · rw [List.length_map, List.length_zip, hi, ho, Nat.min_self]

/-- Witness for C8: a database recording three calls
(`'foo'`, `'bar'`, `'baz'` returning `k1`, `k2`, `k3`) and a method object
carrying `_redis`. -/
theorem replay_spec_witness :
    replay ⟨"Cache.store", ["_redis"]⟩
        ⟨[("Cache.store", "3")],
          [("Cache.store:inputs", ["(\x27foo\x27,)", "(\x27bar\x27,)", "(\x27baz\x27,)"]),
            ("Cache.store:outputs", ["k1", "k2", "k3"])]⟩
      = (⟨[("Cache.store", "3")],
          [("Cache.store:inputs", ["(\x27foo\x27,)", "(\x27bar\x27,)", "(\x27baz\x27,)"]),
            ("Cache.store:outputs", ["k1", "k2", "k3"])]⟩,
        Except.ok
          ["Cache.store was called 3 times:",
            "Cache.store(*(\x27foo\x27,)) -> k1",
            "Cache.store(*(\x27bar\x27,)) -> k2",
            "Cache.store(*(\x27baz\x27,)) -> k3"]) :=
  (replay_spec ⟨"Cache.store", ["_redis"]⟩
    ⟨[("Cache.store", "3")],
      [("Cache.store:inputs", ["(\x27foo\x27,)", "(\x27bar\x27,)", "(\x27baz\x27,)"]),
        ("Cache.store:outputs", ["k1", "k2", "k3"])]⟩
    3 rfl rfl rfl rfl).1

/-- C9: when the counter key for the operation's qualified name is absent,
`replay` raises an `AttributeError` — either from `method._redis` when the
object carries no such attribute, or from `None.decode("utf-8")` on the
missing counter value — and never silently reports a zero count. -/
theorem replay_missing_counter_errors (m : MethodObj) (s : RedisState)
    (h : redisGet s m.qualname = none) :
    (replay m s).2 = Except.error PyErr.attributeError := by
  cases hr : m.attrs.contains "_redis" with
  | true => simp only [replay, hr, if_true, h]
  | false => simp only [replay, hr, Bool.false_eq_true, if_false]

/-- Witness for C9: a method object carrying `_redis` and the fresh
database, whose counter key is absent. -/
theorem replay_missing_counter_errors_witness :
    (replay ⟨"Cache.store", ["_redis"]⟩ initState).2
      = Except.error PyErr.attributeError :=
  replay_missing_counter_errors ⟨"Cache.store", ["_redis"]⟩ initState rfl

/-- C10: passing the bound method `cache.store` to `replay` raises an
`AttributeError` at the `method._redis` access, before any counter or
history is read: the result is the same error for every database state,
the state is returned untouched, and in particular the error occurs even
when counter and logs are present. -/
theorem replay_bound_method_attribute_error (s : RedisState) :
    replay cacheStoreMethod s = (s, Except.error PyErr.attributeError) :=
  rfl
